import Mathlib

set_option maxRecDepth 200000

/-!
# Verification of the MVLBIM data-migration toolkit

Shallow embedding of the migration, validation, batch-processing and
reconciliation code of the MVLBIM repository (design module
"Data Migration & Import/Export Tools" plus `packages/shared/src/validation.ts`),
together with proofs and refutations of the specification claims.

Helper routines that the repository only calls but does not define are
modelled from the specification; each such definition's doc comment starts
with "Modelled from the spec:".
-/

namespace MVLBIM

/-- A validation issue as recorded by the validation engine:
severity (`"error"` or `"warning"`), offending field, message and code. -/
structure Issue where
  severity : String
  field : String
  message : String
  code : String
deriving DecidableEq, Repr

/-- Result of one validation layer (schema / business rules / cross references):
lists of blocking errors and of non-blocking warnings. -/
structure LayerResult where
  errors : List Issue
  warnings : List Issue
deriving DecidableEq, Repr

/-- Statistics attached to the duplicate quality check
(`totalRecords`, `duplicateCount`, `duplicatePercentage` from the source). -/
structure DupStatistics where
  totalRecords : Nat
  duplicateCount : Nat
  duplicatePercentage : ℚ
deriving DecidableEq, Repr

/-- A duplicate warning as pushed by `checkForDuplicates`:
severity, message and the offending record. -/
structure DupWarning (R : Type) where
  severity : String
  message : String
  record : R
deriving DecidableEq, Repr

/-- Outcome of one quality check (`checkType`, warnings, statistics). -/
structure QualityCheck (R : Type) where
  checkType : String
  warnings : List (DupWarning R)
  statistics : DupStatistics
deriving DecidableEq, Repr

/-- Result of `performQualityChecks`: aggregated warnings plus statistics
of type `S`. -/
structure QualityResult (S : Type) where
  warnings : List Issue
  statistics : S
deriving DecidableEq, Repr

/-- The overall `ValidationResult` of `validateMigrationData`:
`isValid`, accumulated errors and warnings, and quality statistics. -/
structure ValidationResult (S : Type) where
  isValid : Bool
  errors : List Issue
  warnings : List Issue
  statistics : S
deriving DecidableEq, Repr

namespace DataValidationEngine

/-- The scan at the heart of `checkForDuplicates`: walk the records keeping a
`seen` set of keys; a record whose key is already in `seen` is collected as a
duplicate; every key is added to `seen` (so only occurrences after the first
are collected). Mirrors the `for … if (seen.has(key)) … seen.add(key)` loop. -/
def dupScan {R : Type} (key : R → String) : List R → Finset String → List R
  | [], _ => []
  | r :: rs, seen =>
    if key r ∈ seen then r :: dupScan key rs (insert (key r) seen)
    else dupScan key rs (insert (key r) seen)

/-- `DataValidationEngine.checkForDuplicates`: collects duplicate records
(second and later occurrences of a key), reports them at warning severity and
computes `totalRecords`, `duplicateCount` and
`duplicatePercentage = duplicateCount / totalRecords * 100`.
`generateRecordKey` is not defined in the repository, so the key function is a
parameter. -/
def checkForDuplicates {R : Type} (key : R → String) (records : List R) :
    QualityCheck R :=
  let duplicates := dupScan key records ∅
  { checkType := "duplicates"
  , warnings := duplicates.map (fun r =>
      { severity := "warning"
      , message := "Duplicate record found: " ++ key r
      , record := r })
  , statistics :=
    { totalRecords := records.length
    , duplicateCount := duplicates.length
    , duplicatePercentage :=
        ((duplicates.length : ℚ) / (records.length : ℚ)) * 100 } }

/-- `DataValidationEngine.validateMigrationData`: runs schema validation, then
business-rule validation, then quality checks, then cross-reference validation,
unconditionally accumulating each layer's issues (schema errors, business
errors and cross-reference errors into `errors`; schema, business and quality
warnings into `warnings`), and finally sets `isValid` iff the accumulated
error list is empty. The four layer functions are not defined in the
repository and are parameters. -/
def validateMigrationData {D S : Type}
    (validateSchema : D → LayerResult)
    (validateBusinessRules : D → LayerResult)
    (performQualityChecks : D → QualityResult S)
    (validateCrossReferences : D → LayerResult)
    (data : D) : ValidationResult S :=
  let schemaResult := validateSchema data
  let businessResult := validateBusinessRules data
  let qualityResult := performQualityChecks data
  let crossRefResult := validateCrossReferences data
  let errors := schemaResult.errors ++ businessResult.errors ++ crossRefResult.errors
  let warnings := schemaResult.warnings ++ businessResult.warnings ++ qualityResult.warnings
  { isValid := errors.isEmpty
  , errors := errors
  , warnings := warnings
  , statistics := qualityResult.statistics }

end DataValidationEngine

/-- Modelled from the spec: the importer consumes per-record validation
outcomes and "a record with any error-severity issue is excluded from import;
warnings are recorded but do not block" (§4.3). -/
def importableRecords {R : Type} (issuesOf : R → List Issue) (records : List R) :
    List R :=
  records.filter (fun r =>
    ((issuesOf r).filter (fun i => i.severity == "error")).isEmpty)

/-- A BOQ (bill of quantities) record as it reaches the migration validator. -/
structure BoqRecord where
  itemCode : String
  description : String
  unit : String
  quantity : ℚ
  rate : ℚ
deriving DecidableEq, Repr

/-- Modelled from the spec: the per-record schema layer of the migration
validator — "numeric fields within declared bounds (e.g., quantity > 0)"
(§4.3), made blocking with the error code of the scenario in §8 and matching
the template rule `{ field: quantity, rule: positive_number }` of
`boqTemplate.validationRules` in the source. -/
def schemaIssues (r : BoqRecord) : List Issue :=
  if 0 < r.quantity then []
  else [{ severity := "error", field := "quantity"
        , message := "Quantity must be positive"
        , code := "quantity_must_be_positive" }]

/-- Modelled from the spec: the per-record business-rule layer — "a resource
rate must be positive" (§4.3), matching the template rule
`{ field: rate, rule: positive_currency }` of `boqTemplate.validationRules`. -/
def businessIssues (r : BoqRecord) : List Issue :=
  if 0 < r.rate then []
  else [{ severity := "error", field := "rate"
        , message := "Rate must be positive"
        , code := "rate_must_be_positive" }]

/-- Modelled from the spec: the schema layer over a whole dataset (the
`validateSchema` call of `validateMigrationData`, absent from the repository):
per-record schema issues, concatenated. -/
def schemaLayer (records : List BoqRecord) : LayerResult :=
  { errors := (records.map schemaIssues).flatten, warnings := [] }

/-- Modelled from the spec: the business-rule layer over a whole dataset (the
`validateBusinessRules` call of `validateMigrationData`, absent from the
repository): per-record business issues, concatenated. -/
def businessLayer (records : List BoqRecord) : LayerResult :=
  { errors := (records.map businessIssues).flatten, warnings := [] }

/-- The quality layer for BOQ data, built on the repository's
`checkForDuplicates` with the item code as natural key. -/
def qualityLayerBoq (records : List BoqRecord) : QualityResult DupStatistics :=
  let qc := DataValidationEngine.checkForDuplicates (fun r => r.itemCode) records
  { warnings := qc.warnings.map (fun w =>
      { severity := w.severity, field := "itemCode"
      , message := w.message, code := "duplicate_record" })
  , statistics := qc.statistics }

/-- Modelled from the spec: the cross-reference layer (`validateCrossReferences`,
absent from the repository) — referential integrity against previously imported
records; with no previously imported set it reports nothing. -/
def crossRefLayer (_records : List BoqRecord) : LayerResult :=
  { errors := [], warnings := [] }

/-- The migration validator for BOQ datasets: the repository's
`validateMigrationData` orchestration applied to the BOQ layers. -/
def validateBoqData (records : List BoqRecord) : ValidationResult DupStatistics :=
  DataValidationEngine.validateMigrationData
    schemaLayer businessLayer qualityLayerBoq crossRefLayer records

/-- Counters of the import scenario of §8
(`discovered`, `imported`, `failed`). -/
structure ImportCounters where
  discovered : Nat
  imported : Nat
  failed : Nat
deriving DecidableEq, Repr

/-- Modelled from the spec: the record-level import pipeline of the §8
scenario — every record is discovered, a record with any error-severity issue
is rejected, the rest are imported. -/
def importPipeline (records : List BoqRecord) : ImportCounters :=
  let issuesOf := fun r => schemaIssues r ++ businessIssues r
  { discovered := records.length
  , imported := (importableRecords issuesOf records).length
  , failed := records.length - (importableRecords issuesOf records).length }

/-! ## Batch processing (`BatchProcessor`) -/

/-- The Bull queue options attached by `queueMigrationJob`
(`priority`, `attempts`, `backoff`, `delay`). -/
structure QueueJobOptions where
  priority : Nat
  attempts : Nat
  backoff : String
  delay : Nat
deriving DecidableEq, Repr

/-- The fields of `MigrationJobConfig` that `BatchProcessor` reads.
Optional numeric fields are `Option Nat` (absent = `undefined`). -/
structure MigrationJobConfig where
  type : String
  priority : Option Nat
  delay : Option Nat
  batchSize : Option Nat
  throttleMs : Option Nat
  estimatedRecords : Nat
deriving DecidableEq, Repr

/-- JavaScript `x || d` on an optional number: `undefined` and `0` are falsy,
so both yield the default. -/
def jsOrNat (v : Option Nat) (d : Nat) : Nat :=
  match v with
  | none => d
  | some n => if n = 0 then d else n

namespace BatchProcessor

/-- `BatchProcessor.queueMigrationJob`: enqueues the job with
`priority: config.priority || 5, attempts: 3, backoff: exponential,
delay: config.delay || 0`. -/
def queueMigrationJob (config : MigrationJobConfig) : QueueJobOptions :=
  { priority := jsOrNat config.priority 5
  , attempts := 3
  , backoff := "exponential"
  , delay := jsOrNat config.delay 0 }

/-- The effective batch size `config.batchSize || 1000` used by
`processMigrationJob`; never zero. -/
def effectiveBatchSize (config : MigrationJobConfig) : Nat :=
  jsOrNat config.batchSize 1000

/-- Result of processing one batch (`successCount` plus record-level errors),
as consumed by the `processMigrationJob` loop. -/
structure BatchResult where
  successCount : Nat
  errors : List String
deriving DecidableEq, Repr

/-- One `updateJobProgress` call:
`{ processed, total: estimatedRecords, errors: batchResult.errors }`. -/
structure ProgressUpdate where
  processed : Nat
  total : Nat
  errors : List String
deriving DecidableEq, Repr

/-- Terminal outcome of `processMigrationJob`: the final `updateJobStatus`
(`completed` or `failed`), the total processed count, the progress updates in
order, and the job-level error if one was thrown. -/
structure JobRun where
  finalStatus : String
  totalProcessed : Nat
  updates : List ProgressUpdate
  jobError : Option String
deriving DecidableEq, Repr

/-- The `while (true)` batch loop of `processMigrationJob`: take the next
batch (`getDataBatch` modelled as slicing the source stream), stop on an empty
batch, otherwise process it, accumulate `successCount`, record a progress
update, and move the offset forward. A thrown (`Except.error`) batch error
propagates. The `batchSize = 0` guard is unreachable through
`effectiveBatchSize` and only makes the recursion well founded. -/
def runBatches {R : Type} (processBatch : List R → Except String BatchResult)
    (batchSize : Nat) (estimatedTotal : Nat) :
    List R → Nat → Except String (Nat × List ProgressUpdate)
  | [], processedCount => .ok (processedCount, [])
  | r :: rest, processedCount =>
    if batchSize = 0 then .ok (processedCount, [])
    else
      match processBatch ((r :: rest).take batchSize) with
      | .error e => .error e
      | .ok batchResult =>
        let newCount := processedCount + batchResult.successCount
        match runBatches processBatch batchSize estimatedTotal
            ((r :: rest).drop batchSize) newCount with
        | .error e => .error e
        | .ok (finalCount, updates) =>
          .ok (finalCount,
            ({ processed := newCount, total := estimatedTotal
             , errors := batchResult.errors } : ProgressUpdate) :: updates)
  termination_by data _ => data.length
  decreasing_by
    simp only [List.length_drop, List.length_cons]
    omega

/-- `BatchProcessor.processMigrationJob`: runs the batch loop inside
`try { … updateJobStatus(completed) } catch { updateJobStatus(failed); throw }`.
Record-level errors returned inside a `BatchResult` are only reported in the
progress updates; only a thrown batch error marks the job failed. -/
def processMigrationJob {R : Type}
    (processBatch : List R → Except String BatchResult)
    (config : MigrationJobConfig) (data : List R) : JobRun :=
  match runBatches processBatch (effectiveBatchSize config)
      config.estimatedRecords data 0 with
  | .ok (totalProcessed, updates) =>
    { finalStatus := "completed", totalProcessed := totalProcessed
    , updates := updates, jobError := none }
  | .error e =>
    { finalStatus := "failed", totalProcessed := 0
    , updates := [], jobError := some e }

/-- Modelled from the spec: `processBatch` for a batch whose records can fail
permanently — "a batch that fails due to a permanent error … is marked failed,
its records are individually re-attempted … and the job proceeds with the
remaining batches rather than aborting entirely" (§4.4), so permanent
record-level failures are returned in the `BatchResult` instead of being
thrown. `importRecord r = none` means success, `some msg` a permanent error. -/
def specProcessBatch {R : Type} (importRecord : R → Option String)
    (batch : List R) : Except String BatchResult :=
  .ok { successCount := (batch.filter (fun r => importRecord r = none)).length
      , errors := batch.filterMap importRecord }

/-- Modelled from the spec: the queue executes up to `n` attempts of a job
(attempt `i` succeeds when `f i = true`); the job is treated as failed only
when all attempts failed. -/
def attemptLoop (f : Nat → Bool) : Nat → Nat → Bool
  | _, 0 => false
  | i, n + 1 => if f i then true else attemptLoop f (i + 1) n

/-- Modelled from the spec: running a job under the queue options retries it
up to `opts.attempts` attempts. -/
def runWithRetryOpts (opts : QueueJobOptions) (f : Nat → Bool) : Bool :=
  attemptLoop f 0 opts.attempts

/-- Modelled from the spec: exponential backoff — the delay before retry `k`
doubles with each retry. -/
def backoffDelay (base k : Nat) : Nat := base * 2 ^ k

end BatchProcessor

/-! ## Migration phases (`MigrationMonitor`) and the job state machine -/

namespace MigrationMonitor

/-- The phase list passed to the `ProgressTracker` by
`MigrationMonitor.createProgressTracker`. -/
def trackerPhases : List String :=
  ["discovery", "extraction", "transformation", "validation", "import",
   "verification"]

end MigrationMonitor

/-- The closed set of job phases: the six tracker phases plus the terminal
states `completed`, `failed` and `canceled`. (`import` is a Lean keyword, so
that phase is the constructor `importing`; `phaseName` restores the source
spelling.) -/
inductive MigrationPhase where
  | discovery
  | extraction
  | transformation
  | validation
  | importing
  | verification
  | completed
  | failed
  | canceled
deriving DecidableEq, Repr

/-- The source-level name of each phase. -/
def phaseName : MigrationPhase → String
  | .discovery => "discovery"
  | .extraction => "extraction"
  | .transformation => "transformation"
  | .validation => "validation"
  | .importing => "import"
  | .verification => "verification"
  | .completed => "completed"
  | .failed => "failed"
  | .canceled => "canceled"

/-- Modelled from the spec: the successor of each phase in the fixed sequence
`Discovery → Extraction → Transformation → Validation → Import →
Verification → Completed` (§4.5). -/
def nextPhase : MigrationPhase → Option MigrationPhase
  | .discovery => some .extraction
  | .extraction => some .transformation
  | .transformation => some .validation
  | .validation => some .importing
  | .importing => some .verification
  | .verification => some .completed
  | .completed => none
  | .failed => none
  | .canceled => none

/-- The terminal states of a job. -/
def isTerminalPhase : MigrationPhase → Bool
  | .completed => true
  | .failed => true
  | .canceled => true
  | _ => false

/-- Modelled from the spec: the allowed transitions of the Job Tracker state
machine (§4.5) — from a non-terminal phase a job may move to its unique
successor, to `failed` (unrecoverable error) or to `canceled` (operator
cancellation); terminal states admit no transition. -/
def allowedStep (p q : MigrationPhase) : Bool :=
  !(isTerminalPhase p) &&
    (nextPhase p == some q || q == .failed || q == .canceled)

/-- The unique fault-free run of the state machine, from `discovery` to
`completed`. -/
def happyPath : List MigrationPhase :=
  [.discovery, .extraction, .transformation, .validation, .importing,
   .verification, .completed]

/-! ## RIB Candy migration (`RIBCandyMigrator`) -/

/-- The validation outcome consumed by `migrateBOQData`
(`isValid`, `errors`, `warnings`). -/
structure BOQValidationResult where
  isValid : Bool
  errors : List Issue
  warnings : List Issue
deriving DecidableEq, Repr

/-- The import outcome consumed by `migrateBOQData` (`itemCount`). -/
structure ImportOutcome where
  itemCount : Nat
deriving DecidableEq, Repr

/-- The `MigrationResult` returned by `migrateBOQData`: a `status` of
`"success"` or `"error"`, the migrated record count, validation warnings, the
caught error message, and the migration log. -/
structure MigrationResult where
  status : String
  recordsMigrated : Option Nat
  validationErrors : List Issue
  errorMessage : Option String
  migrationLog : List String
deriving DecidableEq, Repr

namespace RIBCandyMigrator

/-- The error branch of `migrateBOQData`'s `catch`:
`{ status: error, error: error.message, migrationLog }`. -/
def errorResult (e : String) (log : List String) : MigrationResult :=
  { status := "error", recordsMigrated := none, validationErrors := []
  , errorMessage := some e, migrationLog := log }

/-- `RIBCandyMigrator.migrateBOQData`: extract the BOQ from RIB Candy,
transform it, validate it, throw `MigrationError('BOQ validation failed')`
when validation reports `isValid = false`, otherwise import; the surrounding
`try`/`catch` turns every thrown error into an `error` result. The four
sub-operations act on the destination store `St` only through `importBOQ`,
which returns the updated store; each is a parameter (`extractBOQFromRIBCandy`
and `transformBOQStructure` are database/transformation calls that may throw,
`validateBOQData` and `importBOQ` are not defined in the repository). -/
def migrateBOQData {B T St : Type}
    (extractBOQFromRIBCandy : Except String B)
    (transformBOQStructure : B → Except String T)
    (validateBOQData : T → Except String BOQValidationResult)
    (importBOQ : T → St → Except String (ImportOutcome × St))
    (log : List String) (store : St) : MigrationResult × St :=
  match extractBOQFromRIBCandy with
  | .error e => (errorResult e log, store)
  | .ok sourceBoq =>
    match transformBOQStructure sourceBoq with
    | .error e => (errorResult e log, store)
    | .ok transformedBoq =>
      match validateBOQData transformedBoq with
      | .error e => (errorResult e log, store)
      | .ok validationResult =>
        if validationResult.isValid then
          match importBOQ transformedBoq store with
          | .error e => (errorResult e log, store)
          | .ok (importResult, store2) =>
            ({ status := "success"
             , recordsMigrated := some importResult.itemCount
             , validationErrors := validationResult.warnings
             , errorMessage := none
             , migrationLog := log }, store2)
        else (errorResult "BOQ validation failed" log, store)

end RIBCandyMigrator

/-! ## Data reconciliation (`DataReconciliationEngine`) -/

/-- A record as seen by the reconciliation engine: provenance `externalId`
plus the financial fields. -/
structure ReconRecord where
  externalId : String
  quantity : ℚ
  rate : ℚ
deriving DecidableEq, Repr

/-- The financial totals block of the report
(`source`, `target`, `variance`). -/
structure FinancialTotals where
  source : ℚ
  target : ℚ
  variance : ℚ
deriving DecidableEq, Repr

/-- The `ReconciliationReport` assembled by `reconcileMigratedData`: record
counts, the *lengths* of the matched and unmatched sets
(`reconciliation.matches.length`, …), the discrepancies, the financial totals
and the recommended actions — exactly the fields of the source's return
literal. -/
structure ReconciliationReport where
  sourceRecordCount : Nat
  targetRecordCount : Nat
  matchedRecords : Nat
  unmatchedSource : Nat
  unmatchedTarget : Nat
  discrepancies : Finset String
  financialTotals : FinancialTotals
  recommendedActions : List String
deriving DecidableEq

namespace DataReconciliationEngine

/-- The external ids occurring in a record list. -/
def externalIds (records : List ReconRecord) : Finset String :=
  (records.map (fun r => r.externalId)).toFinset

/-- Modelled from the spec: `performReconciliation` matches source and target
records "keyed by externalId" (§3): the matched set is the ids present on both
sides. -/
def matchedIds (source target : List ReconRecord) : Finset String :=
  externalIds source ∩ externalIds target

/-- Modelled from the spec: the source records with no target counterpart. -/
def unmatchedSourceIds (source target : List ReconRecord) : Finset String :=
  externalIds source \ externalIds target

/-- Modelled from the spec: the target records with no source counterpart. -/
def unmatchedTargetIds (source target : List ReconRecord) : Finset String :=
  externalIds target \ externalIds source

/-- The financial amount recorded for an external id on one side (first
matching record; `quantity × rate`). -/
def amountFor (records : List ReconRecord) (id : String) : ℚ :=
  match records.find? (fun r => r.externalId == id) with
  | some r => r.quantity * r.rate
  | none => 0

/-- Modelled from the spec: the discrepancies — matched ids whose source and
target amounts differ. -/
def discrepancyIds (source target : List ReconRecord) : Finset String :=
  (matchedIds source target).filter
    (fun id => amountFor source id ≠ amountFor target id)

/-- Modelled from the spec: `calculateFinancialTotals` — "financial totals
(e.g., sum of quantity × rate)" (§4.6). -/
def calculateFinancialTotals (records : List ReconRecord) : ℚ :=
  (records.map (fun r => r.quantity * r.rate)).sum

/-- Modelled from the spec: `calculateVariance` — the signed variance between
the independently computed totals. -/
def calculateVariance (source target : List ReconRecord) : ℚ :=
  calculateFinancialTotals target - calculateFinancialTotals source

/-- Modelled from the spec: `generateRecommendations` — advice derived from
the reconciliation outcome (driven by the unmatched and discrepancy counts). -/
def generateRecommendations (unmatchedS unmatchedT discrepancyCount : Nat) :
    List String :=
  (if 0 < unmatchedS then ["Investigate unmatched source records"] else []) ++
  (if 0 < unmatchedT then ["Investigate unmatched target records"] else []) ++
  (if 0 < discrepancyCount then ["Review value discrepancies"] else [])

/-- `DataReconciliationEngine.reconcileMigratedData`: assembles the
`ReconciliationReport` of the source — counts of both sides, the *lengths* of
the matched/unmatched sets, the discrepancies, the financial totals computed
independently from source and target with their variance, and the
recommendations. Note that the function has no tolerance parameter and the
report has no verdict field. -/
def reconcileMigratedData (sourceData targetData : List ReconRecord) :
    ReconciliationReport :=
  { sourceRecordCount := sourceData.length
  , targetRecordCount := targetData.length
  , matchedRecords := (matchedIds sourceData targetData).card
  , unmatchedSource := (unmatchedSourceIds sourceData targetData).card
  , unmatchedTarget := (unmatchedTargetIds sourceData targetData).card
  , discrepancies := discrepancyIds sourceData targetData
  , financialTotals :=
    { source := calculateFinancialTotals sourceData
    , target := calculateFinancialTotals targetData
    , variance := calculateVariance sourceData targetData }
  , recommendedActions :=
      generateRecommendations
        (unmatchedSourceIds sourceData targetData).card
        (unmatchedTargetIds sourceData targetData).card
        (discrepancyIds sourceData targetData).card }

/-- The pass/fail verdict the spec describes: the absolute variance is within
the configured tolerance. Computable from a variance and a tolerance, but not
stored in the report. -/
def toleranceVerdict (variance tolerance : ℚ) : Bool :=
  |variance| ≤ tolerance

end DataReconciliationEngine

/-! ## Excel header mapping (`ExcelMigrationEngine` and `boqTemplate`) -/

/-- One field of an Excel template (`name`, `aliases`, `required`, optional
`dataType`), as in the `boqTemplate` literal. -/
structure TemplateField where
  name : String
  aliases : List String
  required : Bool
  dataType : Option String
deriving DecidableEq, Repr

/-- One entry of `boqTemplate.validationRules`. -/
structure TemplateRule where
  field : String
  rule : String
deriving DecidableEq, Repr

/-- An Excel template (`name`, `description`, `fields`, `validationRules`). -/
structure ExcelTemplate where
  name : String
  description : String
  fields : List TemplateField
  validationRules : List TemplateRule
deriving DecidableEq, Repr

/-- The `boqTemplate` literal of the source ("Standard BOQ Template"). -/
def boqTemplate : ExcelTemplate :=
  { name := "Standard BOQ Template"
  , description := "Standard Bill of Quantities format"
  , fields :=
    [ { name := "item_code", aliases := ["code", "item no", "item number"]
      , required := true, dataType := none }
    , { name := "description", aliases := ["desc", "item description"]
      , required := true, dataType := none }
    , { name := "unit", aliases := ["uom", "unit of measure"]
      , required := true, dataType := none }
    , { name := "quantity", aliases := ["qty", "amount"]
      , required := true, dataType := some "number" }
    , { name := "rate", aliases := ["unit rate", "price"]
      , required := true, dataType := some "currency" }
    , { name := "amount", aliases := ["total", "total amount"]
      , required := false, dataType := some "currency" } ]
  , validationRules :=
    [ { field := "quantity", rule := "positive_number" }
    , { field := "rate", rule := "positive_currency" }
    , { field := "item_code", rule := "unique_within_sheet" } ] }

namespace ExcelMigrationEngine

/-- One layer of the Levenshtein recursion: given the distance function
`f = lev xs` for the tail, compute `lev (x :: xs)` by structural recursion on
the second list (deletion of `x`, insertion of `y`, substitution). -/
def levCons (x : Char) (f : List Char → Nat) : List Char → Nat
  | [] => f [] + 1
  | y :: ys =>
    min (f (y :: ys) + 1)
      (min (levCons x f ys + 1) (f ys + if x = y then 0 else 1))

/-- Levenshtein edit distance between two character lists (unit costs). -/
def lev : List Char → List Char → Nat
  | [], ys => ys.length
  | x :: xs, ys => levCons x (lev xs) ys

/-- Header normalization: trim surrounding spaces and lowercase. -/
def normalizeHeader (s : String) : List Char :=
  (((s.data.dropWhile (fun c => c = ' ')).reverse.dropWhile
      (fun c => c = ' ')).reverse).map Char.toLower

/-- Normalized string similarity in `[0,1]`:
`1 - distance / max length` (1 when both strings are empty). -/
def similarity (a b : List Char) : ℚ :=
  if a.length = 0 ∧ b.length = 0 then 1
  else 1 - (lev a b : ℚ) / ((max a.length b.length : Nat) : ℚ)

/-- The best similarity of a normalized header against a field's aliases. -/
def aliasSimilarity (header : List Char) (f : TemplateField) : ℚ :=
  (f.aliases.map (fun al => similarity header (normalizeHeader al))).foldr max 0

/-- The first field one of whose aliases matches the header exactly after
normalization. -/
def exactAliasField (header : String) (fields : List TemplateField) :
    Option TemplateField :=
  fields.find? (fun f =>
    f.aliases.any (fun al => normalizeHeader al == normalizeHeader header))

/-- Keep the scored candidate with the strictly larger score (the earlier
candidate wins ties — a deterministic first-declared tie-break). -/
def pickBest : List (String × ℚ) → Option (String × ℚ) → Option (String × ℚ)
  | [], acc => acc
  | p :: ps, acc =>
    pickBest ps
      (match acc with
       | none => some p
       | some q => if q.2 < p.2 then some p else some q)

/-- Modelled from the spec: `findBestMatch` — "exact alias match
(confidence 1.0) takes priority; otherwise a normalized string-similarity
match against aliases (confidence in [0,1)) is used, and a match is accepted
only above a configurable minimum confidence (default 0.6)" (§4.2). Returns
the canonical field name with its confidence, or `none` when rejected. -/
def findBestMatch (minConfidence : ℚ) (header : String)
    (fields : List TemplateField) : Option (String × ℚ) :=
  match exactAliasField header fields with
  | some f => some (f.name, 1)
  | none =>
    let h := normalizeHeader header
    match pickBest (fields.map (fun f => (f.name, aliasSimilarity h f))) none with
    | some (n, c) => if minConfidence < c then some (n, c) else none
    | none => none

/-- The default minimum confidence of the spec. -/
def defaultMinConfidence : ℚ := 6 / 10

end ExcelMigrationEngine

/-! ## The shared cost-item schema (`packages/shared/src/validation.ts`) -/

/-- The input shape of `createCostItemSchema`. -/
structure CostItemInput where
  name : String
  description : Option String
  code : Option String
  type : String
  quantity : ℚ
  unit : String
  unitCost : ℚ
  categoryId : String
  phaseId : Option String
  notes : Option String
deriving DecidableEq, Repr

/-- The cost-item type enumeration of `createCostItemSchema`. -/
def costItemTypes : List String :=
  ["MATERIAL", "LABOR", "EQUIPMENT", "SUBCONTRACTOR", "OTHER"]

/-- The zod `cuid` check: a `c` (case-insensitive) followed by at least eight
characters none of which is a space or a hyphen. -/
def isCuid (s : String) : Bool :=
  match s.data with
  | c :: rest =>
    (c = 'c' || c = 'C') && decide (8 ≤ rest.length) &&
      rest.all (fun ch => ch ≠ ' ' && ch ≠ '-')
  | [] => false

/-- `createCostItemSchema` from `packages/shared/src/validation.ts`: the list
of zod error messages produced for an input (empty iff the input parses). -/
def createCostItemSchemaCheck (x : CostItemInput) : List String :=
  (if 1 ≤ x.name.length then [] else ["Cost item name is required"]) ++
  (if x.type ∈ costItemTypes then [] else ["Invalid enum value"]) ++
  (if 0 < x.quantity then [] else ["Quantity must be positive"]) ++
  (if 1 ≤ x.unit.length then [] else ["Unit is required"]) ++
  (if 0 < x.unitCost then [] else ["Unit cost must be positive"]) ++
  (if isCuid x.categoryId then [] else ["Invalid category ID"]) ++
  (match x.phaseId with
   | some p => if isCuid p then [] else ["Invalid phase ID"]
   | none => [])

/-! ## Concrete fixtures for the scenario and counterexample theorems -/

/-- A record that fails both the schema layer (non-positive quantity) and the
business layer (non-positive rate). -/
def fixtureBadBoq : BoqRecord :=
  { itemCode := "B2", description := "Bad row", unit := "m"
  , quantity := -1, rate := -2 }

/-- The bad record of the §8 scenario: a negative quantity. -/
def scenarioBadRecord : BoqRecord :=
  { itemCode := "A3", description := "Disposal", unit := "m3"
  , quantity := -5, rate := 2 }

/-- The §8 scenario source: three records, one with a negative quantity. -/
def scenarioRecords : List BoqRecord :=
  [ { itemCode := "A1", description := "Excavation", unit := "m3"
    , quantity := 10, rate := 5 }
  , { itemCode := "A2", description := "Backfill", unit := "m3"
    , quantity := 4, rate := 3 }
  , scenarioBadRecord ]

/-- Reconciliation fixture: a source with two records `a` and `b`. -/
def reconSrc : List ReconRecord :=
  [ { externalId := "a", quantity := 1, rate := 1 }
  , { externalId := "b", quantity := 1, rate := 1 } ]

/-- Reconciliation fixture: a target holding only `a`. -/
def reconTgtA : List ReconRecord :=
  [ { externalId := "a", quantity := 1, rate := 1 } ]

/-- Reconciliation fixture: a target holding only `b`. -/
def reconTgtB : List ReconRecord :=
  [ { externalId := "b", quantity := 1, rate := 1 } ]

/-! # Theorems -/

/-! ## Duplicate detection (claim C10) -/

/-- A record whose key is not yet seen is never collected: the scan just
marks the key as seen and continues. -/
theorem dupScan_cons_not_seen {R : Type} (key : R → String) (r : R)
    (rs : List R) (S : Finset String) (h : key r ∉ S) :
    DataValidationEngine.dupScan key (r :: rs) S =
      DataValidationEngine.dupScan key rs (insert (key r) S) := by
  simp [DataValidationEngine.dupScan, h]

/-- The number of collected duplicates is the record count minus the number
of distinct keys not yet seen. -/
theorem dupScan_length {R : Type} (key : R → String) :
    ∀ (rs : List R) (S : Finset String),
      (DataValidationEngine.dupScan key rs S).length =
        rs.length - (((rs.map key).toFinset) \ S).card := by
  intro rs
  induction rs with
  | nil => intro S; simp [DataValidationEngine.dupScan]
  | cons r rs ih =>
    intro S
    have hsub : ((rs.map key).toFinset \ S).card ≤ rs.length := by
      calc ((rs.map key).toFinset \ S).card
          ≤ (rs.map key).toFinset.card := Finset.card_le_card Finset.sdiff_subset
        _ ≤ (rs.map key).length := (rs.map key).toFinset_card_le
        _ = rs.length := List.length_map rs key
    by_cases h : key r ∈ S
    · have hS : insert (key r) S = S := Finset.insert_eq_self.mpr h
      have hins : insert (key r) (rs.map key).toFinset \ S =
          (rs.map key).toFinset \ S := Finset.insert_sdiff_of_mem _ h
      simp only [DataValidationEngine.dupScan, if_pos h, List.length_cons,
        List.map_cons, List.toFinset_cons, ih, hS, hins]
      omega
    · have hins : insert (key r) (rs.map key).toFinset \ S =
          insert (key r) ((rs.map key).toFinset \ S) := by
        ext a
        simp only [Finset.mem_sdiff, Finset.mem_insert]
        constructor
        · rintro ⟨ha | ha, hna⟩
          · exact Or.inl ha
          · exact Or.inr ⟨ha, hna⟩
        · rintro (rfl | ⟨ha, hna⟩)
          · exact ⟨Or.inl rfl, h⟩
          · exact ⟨Or.inr ha, hna⟩
      have hsd : (rs.map key).toFinset \ insert (key r) S =
          ((rs.map key).toFinset \ S).erase (key r) := Finset.sdiff_insert _ _ _
      simp only [DataValidationEngine.dupScan, if_neg h, List.length_cons,
        List.map_cons, List.toFinset_cons, ih, hins, hsd]
      by_cases hk : key r ∈ (rs.map key).toFinset \ S
      · have h1 : (insert (key r) ((rs.map key).toFinset \ S)).card =
            ((rs.map key).toFinset \ S).card := Finset.card_insert_of_mem hk
        have h2 : (((rs.map key).toFinset \ S).erase (key r)).card =
            ((rs.map key).toFinset \ S).card - 1 := Finset.card_erase_of_mem hk
        have h3 : 1 ≤ ((rs.map key).toFinset \ S).card :=
          Finset.card_pos.mpr ⟨key r, hk⟩
        rw [h1, h2]
        omega
      · have h1 : (insert (key r) ((rs.map key).toFinset \ S)).card =
            ((rs.map key).toFinset \ S).card + 1 := Finset.card_insert_of_not_mem hk
        have h2 : ((rs.map key).toFinset \ S).erase (key r) =
            (rs.map key).toFinset \ S := Finset.erase_eq_of_not_mem hk
        rw [h1, h2]
        omega

/-- Per-key count of collected duplicates: all occurrences when the key was
already seen, all but one occurrence otherwise. -/
theorem dupScan_countP {R : Type} (key : R → String) (k : String) :
    ∀ (rs : List R) (S : Finset String),
      (DataValidationEngine.dupScan key rs S).countP (fun r => key r == k) =
        if k ∈ S then rs.countP (fun r => key r == k)
        else rs.countP (fun r => key r == k) -
          min (rs.countP (fun r => key r == k)) 1 := by
  intro rs
  induction rs with
  | nil =>
    intro S
    simp [DataValidationEngine.dupScan]
  | cons r rs ih =>
    intro S
    by_cases hk : key r = k
    · subst hk
      by_cases h : key r ∈ S
      · have hflag : DataValidationEngine.dupScan key (r :: rs) S =
            r :: DataValidationEngine.dupScan key rs (insert (key r) S) := by
          simp [DataValidationEngine.dupScan, h]
        rw [hflag, List.countP_cons, ih]
        simp [h, List.countP_cons]
      · rw [dupScan_cons_not_seen key r rs S h, ih]
        simp [h, List.countP_cons]
    · have hbeq : (key r == k) = false := by simp [hk]
      have hMemEq : (k ∈ insert (key r) S) = (k ∈ S) := by
        apply propext
        constructor
        · intro h2
          rcases Finset.mem_insert.mp h2 with h3 | h3
          · exact absurd h3.symm hk
          · exact h3
        · exact Finset.mem_insert_of_mem
      by_cases h : key r ∈ S
      · have hflag : DataValidationEngine.dupScan key (r :: rs) S =
            r :: DataValidationEngine.dupScan key rs (insert (key r) S) := by
          simp [DataValidationEngine.dupScan, h]
        rw [hflag, List.countP_cons, ih]
        simp [hbeq, hMemEq, List.countP_cons]
      · rw [dupScan_cons_not_seen key r rs S h, ih]
        simp [hbeq, hMemEq, List.countP_cons]

/-- C10: in `checkForDuplicates`, the first occurrence of each key is never
flagged — the warning count equals total records minus distinct keys, each
key keeps exactly one unflagged occurrence, a record with an unseen key is
skipped by the scan, every duplicate is reported at warning severity, and
`duplicatePercentage = duplicateCount / totalRecords * 100`. -/
theorem c10_duplicate_detection {R : Type} (key : R → String)
    (records : List R) :
    ((DataValidationEngine.checkForDuplicates key records).warnings.length =
        records.length - (records.map key).toFinset.card)
    ∧ (∀ w ∈ (DataValidationEngine.checkForDuplicates key records).warnings,
        w.severity = "warning")
    ∧ ((DataValidationEngine.checkForDuplicates key records).statistics.duplicatePercentage =
        (((DataValidationEngine.checkForDuplicates key records).statistics.duplicateCount : ℚ) /
          ((DataValidationEngine.checkForDuplicates key records).statistics.totalRecords : ℚ)) * 100)
    ∧ (∀ k : String,
        (DataValidationEngine.checkForDuplicates key records).warnings.countP
            (fun w => key w.record == k) =
          records.countP (fun r => key r == k) -
            min (records.countP (fun r => key r == k)) 1)
    ∧ (∀ (r : R) (rs : List R) (S : Finset String), key r ∉ S →
        DataValidationEngine.dupScan key (r :: rs) S =
          DataValidationEngine.dupScan key rs (insert (key r) S)) := by
  refine ⟨?_, ?_, rfl, ?_, ?_⟩
  · simp only [DataValidationEngine.checkForDuplicates, List.length_map]
    rw [dupScan_length]
    simp
  · intro w hw
    simp only [DataValidationEngine.checkForDuplicates, List.mem_map] at hw
    obtain ⟨r, _, rfl⟩ := hw
    rfl
  · intro k
    simp only [DataValidationEngine.checkForDuplicates, List.countP_map]
    have := dupScan_countP key k records ∅
    simpa using this
  · intro r rs S h
    exact dupScan_cons_not_seen key r rs S h

/-- Witness for C10: the scan over a concrete record list never flags the
leading record, whose key is unseen. -/
theorem c10_duplicate_detection_witness :
    DataValidationEngine.dupScan (fun r : BoqRecord => r.itemCode)
        (scenarioBadRecord :: scenarioRecords) ∅ =
      DataValidationEngine.dupScan (fun r : BoqRecord => r.itemCode)
        scenarioRecords (insert scenarioBadRecord.itemCode ∅) :=
  (c10_duplicate_detection (fun r : BoqRecord => r.itemCode)
      scenarioRecords).2.2.2.2 scenarioBadRecord scenarioRecords ∅ (by simp)

/-! ## Validator verdict (claim C1) -/

/-- C1: the validator's verdict — `isValid` holds iff the accumulated error
list is empty, the verdict is unchanged under any change of the quality layer
or of the other layers' warning lists (warnings never block), and a record
with an error-severity issue is excluded from import. -/
theorem c1_validator_verdict {D S : Type}
    (vs vb : D → LayerResult) (pq : D → QualityResult S)
    (vc : D → LayerResult) (d : D) :
    ((DataValidationEngine.validateMigrationData vs vb pq vc d).isValid = true ↔
      (DataValidationEngine.validateMigrationData vs vb pq vc d).errors = [])
    ∧ (∀ pq2 : D → QualityResult S,
        (DataValidationEngine.validateMigrationData vs vb pq2 vc d).isValid =
          (DataValidationEngine.validateMigrationData vs vb pq vc d).isValid)
    ∧ (∀ vs2 vb2 vc2 : D → LayerResult,
        (vs2 d).errors = (vs d).errors → (vb2 d).errors = (vb d).errors →
        (vc2 d).errors = (vc d).errors →
        (DataValidationEngine.validateMigrationData vs2 vb2 pq vc2 d).isValid =
          (DataValidationEngine.validateMigrationData vs vb pq vc d).isValid)
    ∧ (∀ (R : Type) (issuesOf : R → List Issue) (records : List R) (r : R),
        (∃ i ∈ issuesOf r, i.severity = "error") →
        r ∉ importableRecords issuesOf records) := by
  refine ⟨?_, ?_, ?_, ?_⟩
  · simp [DataValidationEngine.validateMigrationData, List.isEmpty_iff]
  · intro pq2
    simp [DataValidationEngine.validateMigrationData]
  · intro vs2 vb2 vc2 h1 h2 h3
    simp [DataValidationEngine.validateMigrationData, h1, h2, h3]
  · intro R issuesOf records r hr hmem
    simp only [importableRecords, List.mem_filter] at hmem
    obtain ⟨i, hi, hsev⟩ := hr
    have : i ∈ (issuesOf r).filter (fun j => j.severity == "error") :=
      List.mem_filter.mpr ⟨hi, by simp [hsev]⟩
    rcases List.isEmpty_iff.mp hmem.2 ▸ this with h
    simp_all

/-- Witness for C1: a concrete record with an error-severity issue is not
importable. -/
theorem c1_validator_verdict_witness :
    fixtureBadBoq ∉ importableRecords
      (fun r => schemaIssues r ++ businessIssues r) [fixtureBadBoq] :=
  (c1_validator_verdict schemaLayer businessLayer qualityLayerBoq crossRefLayer
      ([] : List BoqRecord)).2.2.2 BoqRecord
    (fun r => schemaIssues r ++ businessIssues r) [fixtureBadBoq] fixtureBadBoq
    ⟨{ severity := "error", field := "quantity"
     , message := "Quantity must be positive"
     , code := "quantity_must_be_positive" },
      by with_unfolding_all decide, rfl⟩

/-! ## Validator layer order (claim C4) -/

/-- C4 counterexample: on a record failing schema validation (negative
quantity), the business-rule layer still runs — its issue (negative rate)
appears in the accumulated errors, so the later layers are not
short-circuited. -/
theorem c4_counterexample :
    (validateBoqData [fixtureBadBoq]).errors =
      [ { severity := "error", field := "quantity"
        , message := "Quantity must be positive"
        , code := "quantity_must_be_positive" }
      , { severity := "error", field := "rate"
        , message := "Rate must be positive"
        , code := "rate_must_be_positive" } ] := by
  with_unfolding_all decide

/-- C4 (amended): the validator runs its layers in the fixed order schema,
business rules, quality, with errors and warnings concatenated in layer
order, but without short-circuiting — business-rule issues are reported even
when schema validation failed — and every record is still counted. -/
theorem c4_layer_order_no_short_circuit {D S : Type}
    (vs vb : D → LayerResult) (pq : D → QualityResult S)
    (vc : D → LayerResult) (d : D) :
    ((DataValidationEngine.validateMigrationData vs vb pq vc d).errors =
        (vs d).errors ++ (vb d).errors ++ (vc d).errors)
    ∧ ((DataValidationEngine.validateMigrationData vs vb pq vc d).warnings =
        (vs d).warnings ++ (vb d).warnings ++ (pq d).warnings)
    ∧ ((vs d).errors ≠ [] → ∀ e ∈ (vb d).errors,
        e ∈ (DataValidationEngine.validateMigrationData vs vb pq vc d).errors)
    ∧ (∀ records : List BoqRecord,
        (validateBoqData records).statistics.totalRecords = records.length) := by
  refine ⟨rfl, rfl, ?_, fun records => rfl⟩
  intro _ e he
  simp [DataValidationEngine.validateMigrationData, he]

/-- Witness for C4 (amended): concretely, with schema errors present the
business-layer issue of the bad fixture record is still reported. -/
theorem c4_layer_order_witness :
    { severity := "error", field := "rate"
    , message := "Rate must be positive"
    , code := "rate_must_be_positive" : Issue } ∈
      (DataValidationEngine.validateMigrationData schemaLayer businessLayer
        qualityLayerBoq crossRefLayer [fixtureBadBoq]).errors :=
  (c4_layer_order_no_short_circuit schemaLayer businessLayer qualityLayerBoq
      crossRefLayer [fixtureBadBoq]).2.2.1 (by with_unfolding_all decide) _
    (by with_unfolding_all decide)

/-! ## Batch processing (claims C2 and C5) -/

/-- The batch loop under the spec-modelled `processBatch`: it always succeeds,
the processed count accumulates the per-record successes, and the progress
updates carry every record-level error. -/
theorem runBatches_spec {R : Type} (imp : R → Option String) (bs est : Nat)
    (hbs : bs ≠ 0) :
    ∀ (n : Nat) (data : List R), data.length ≤ n → ∀ count : Nat,
      ∃ ups : List BatchProcessor.ProgressUpdate,
        BatchProcessor.runBatches (BatchProcessor.specProcessBatch imp) bs est
            data count =
          .ok (count + (data.filter (fun r => imp r = none)).length, ups) ∧
        (ups.map (fun u => u.errors)).flatten = data.filterMap imp := by
  intro n
  induction n with
  | zero =>
    intro data hlen count
    have hnil : data = [] := List.length_eq_zero.mp (Nat.le_zero.mp hlen)
    subst hnil
    exact ⟨[], by simp [BatchProcessor.runBatches], by simp⟩
  | succ n ih =>
    intro data hlen count
    match data with
    | [] => exact ⟨[], by simp [BatchProcessor.runBatches], by simp⟩
    | r :: rest =>
      have hlen2 : ((r :: rest).drop bs).length ≤ n := by
        simp only [List.length_drop, List.length_cons]
        simp only [List.length_cons] at hlen
        omega
      obtain ⟨ups, hrun, hflat⟩ := ih ((r :: rest).drop bs) hlen2
        (count + (((r :: rest).take bs).filter (fun x => imp x = none)).length)
      have hsplit : ((r :: rest).filter (fun x => imp x = none)).length =
          (((r :: rest).take bs).filter (fun x => imp x = none)).length +
          (((r :: rest).drop bs).filter (fun x => imp x = none)).length := by
        conv_lhs => rw [← List.take_append_drop bs (r :: rest)]
        rw [List.filter_append, List.length_append]
      have hsplit2 : (r :: rest).filterMap imp =
          ((r :: rest).take bs).filterMap imp ++
          ((r :: rest).drop bs).filterMap imp := by
        conv_lhs => rw [← List.take_append_drop bs (r :: rest)]
        rw [List.filterMap_append]
      refine ⟨BatchProcessor.ProgressUpdate.mk
          (count + (((r :: rest).take bs).filter (fun x => imp x = none)).length)
          est (((r :: rest).take bs).filterMap imp) :: ups, ?_, ?_⟩
      · rw [BatchProcessor.runBatches]
        simp only [if_neg hbs, BatchProcessor.specProcessBatch]
        rw [hrun]
        rw [hsplit]
        simp [Nat.add_assoc]
      · simp only [List.map_cons, List.flatten_cons, hflat]
        exact hsplit2.symm

/-- C2: record-level errors never abort a migration job — with the
spec-modelled `processBatch` (permanent record failures reported inside the
`BatchResult`), the job always completes for every record outcome, the
partial success count equals the number of successfully imported records, and
every record-level error is reported through the progress updates. -/
theorem c2_record_errors_never_abort {R : Type}
    (importRecord : R → Option String) (config : MigrationJobConfig)
    (data : List R) :
    ((BatchProcessor.processMigrationJob
        (BatchProcessor.specProcessBatch importRecord) config
        data).finalStatus = "completed")
    ∧ ((BatchProcessor.processMigrationJob
        (BatchProcessor.specProcessBatch importRecord) config
        data).jobError = none)
    ∧ ((BatchProcessor.processMigrationJob
        (BatchProcessor.specProcessBatch importRecord) config
        data).totalProcessed =
          (data.filter (fun r => importRecord r = none)).length)
    ∧ (((BatchProcessor.processMigrationJob
          (BatchProcessor.specProcessBatch importRecord) config
          data).updates.map (fun u => u.errors)).flatten =
        data.filterMap importRecord) := by
  have hbs : BatchProcessor.effectiveBatchSize config ≠ 0 := by
    unfold BatchProcessor.effectiveBatchSize jsOrNat
    cases hb : config.batchSize with
    | none => simp
    | some m => by_cases hm : m = 0 <;> simp [hm]
  obtain ⟨ups, hrun, hflat⟩ := runBatches_spec importRecord
    (BatchProcessor.effectiveBatchSize config) config.estimatedRecords hbs
    data.length data le_rfl 0
  unfold BatchProcessor.processMigrationJob
  rw [hrun]
  exact ⟨rfl, rfl, by simp, hflat⟩

/-- C5: every queued migration job carries retry options `attempts = 3` with
exponential backoff; under the spec-modelled queue semantics the job is
treated as failed only after three failed attempts, and the backoff delay
doubles with each retry. -/
theorem c5_retry_policy (config : MigrationJobConfig) (f : Nat → Bool) :
    ((BatchProcessor.queueMigrationJob config).attempts = 3)
    ∧ ((BatchProcessor.queueMigrationJob config).backoff = "exponential")
    ∧ (BatchProcessor.runWithRetryOpts (BatchProcessor.queueMigrationJob config) f =
        (f 0 || (f 1 || f 2)))
    ∧ (∀ base k : Nat, BatchProcessor.backoffDelay base (k + 1) =
        2 * BatchProcessor.backoffDelay base k) := by
  refine ⟨rfl, rfl, ?_, ?_⟩
  · cases h0 : f 0 <;> cases h1 : f 1 <;> cases h2 : f 2 <;>
      simp [BatchProcessor.runWithRetryOpts, BatchProcessor.attemptLoop,
        BatchProcessor.queueMigrationJob, h0, h1, h2]
  · intro base k
    simp only [BatchProcessor.backoffDelay, pow_succ]
    ring

/-! ## Job phase state machine (claim C8) -/

/-- C8: the job phases follow the fixed sequence of the tracker (`discovery`
through `verification`, then `completed`); along the happy path every step is
allowed; apart from the terminal deviations `failed` and `canceled`, the only
allowed step from any phase is its unique successor (no phase is entered
before its predecessor completes); `failed` and `canceled` are reachable from
every non-terminal phase; terminal phases admit no transition. -/
theorem c8_phase_machine :
    (happyPath.map phaseName = MigrationMonitor.trackerPhases ++ ["completed"])
    ∧ (happyPath.head? = some .discovery)
    ∧ List.Chain' (fun p q => allowedStep p q = true) happyPath
    ∧ (∀ p q : MigrationPhase, allowedStep p q = true →
        q ≠ .failed → q ≠ .canceled → nextPhase p = some q)
    ∧ (∀ p : MigrationPhase, isTerminalPhase p = false →
        allowedStep p .failed = true ∧ allowedStep p .canceled = true)
    ∧ (∀ p q : MigrationPhase, isTerminalPhase p = true →
        allowedStep p q = false) := by
  refine ⟨by decide, by decide,
    by simp only [happyPath, List.chain'_cons, List.chain'_singleton]
       refine ⟨?_, ?_, ?_, ?_, ?_, ?_⟩ <;> decide, ?_, ?_, ?_⟩
  · intro p q h hf hc
    revert h hf hc
    cases p <;> cases q <;> decide
  · intro p h
    revert h
    cases p <;> decide
  · intro p q h
    revert h
    cases p <;> cases q <;> decide

/-- Witness for C8: concrete instances — from `discovery` the only allowed
non-exceptional step is `extraction`, and `failed` is reachable from
`importing`. -/
theorem c8_phase_machine_witness :
    nextPhase .discovery = some .extraction ∧
      allowedStep .importing .failed = true :=
  ⟨c8_phase_machine.2.2.2.1 .discovery .extraction (by decide) (by decide)
      (by decide),
    (c8_phase_machine.2.2.2.2.1 .importing (by decide)).1⟩

/-! ## RIB Candy BOQ migration (claim C9) -/

/-- C9: `migrateBOQData` never propagates an exception — its status is always
`success` or `error` — and on a validation failure the result is the
validation-failed error with the destination store unchanged, independently
of the import operation (so `importBOQ` is never invoked). -/
theorem c9_migrate_boq_total {B T St : Type}
    (ex : Except String B) (tr : B → Except String T)
    (va : T → Except String BOQValidationResult)
    (imp : T → St → Except String (ImportOutcome × St))
    (log : List String) (store : St) :
    ((RIBCandyMigrator.migrateBOQData ex tr va imp log store).1.status =
        "success" ∨
      (RIBCandyMigrator.migrateBOQData ex tr va imp log store).1.status =
        "error")
    ∧ (∀ (sb : B) (tb : T) (vr : BOQValidationResult),
        ex = .ok sb → tr sb = .ok tb → va tb = .ok vr → vr.isValid = false →
        ∀ imp2 : T → St → Except String (ImportOutcome × St),
          RIBCandyMigrator.migrateBOQData ex tr va imp2 log store =
            (RIBCandyMigrator.errorResult "BOQ validation failed" log,
              store)) := by
  constructor
  · unfold RIBCandyMigrator.migrateBOQData
    rcases ex with e | sb
    · exact Or.inr rfl
    · rcases htr : tr sb with e | tb
      · simp [htr, RIBCandyMigrator.errorResult]
      · rcases hva : va tb with e | vr
        · simp [htr, hva, RIBCandyMigrator.errorResult]
        · cases hv : vr.isValid
          · simp [htr, hva, hv, RIBCandyMigrator.errorResult]
          · rcases himp : imp tb store with e | pr
            · simp [htr, hva, hv, himp, RIBCandyMigrator.errorResult]
            · rcases pr with ⟨ir, st2⟩
              simp [htr, hva, hv, himp]
  · intro sb tb vr hex htr hva hv imp2
    subst hex
    unfold RIBCandyMigrator.migrateBOQData
    simp [htr, hva, hv]

/-- Witness for C9: at a concrete failing validation the migration returns
the validation-failed error and leaves the (unit) store untouched for an
arbitrary import operation. -/
theorem c9_migrate_boq_total_witness :
    RIBCandyMigrator.migrateBOQData
        (Except.ok () : Except String Unit)
        (fun _ => Except.ok () : Unit → Except String Unit)
        (fun _ => .ok { isValid := false, errors := [], warnings := [] })
        (fun _ st => .ok ({ itemCount := 7 }, st + 1)) ["log entry"] (0 : Nat) =
      (RIBCandyMigrator.errorResult "BOQ validation failed" ["log entry"], 0) :=
  (c9_migrate_boq_total (.ok ()) (fun _ => .ok ())
      (fun _ => .ok { isValid := false, errors := [], warnings := [] })
      (fun _ st => .ok ({ itemCount := 7 }, st + 1)) ["log entry"] 0).2
    () () { isValid := false, errors := [], warnings := [] } rfl rfl rfl rfl
    (fun _ st => .ok ({ itemCount := 7 }, st + 1))

/-! ## Reconciliation report (claim C3) -/

/-- C3 counterexample: two reconciliation runs over the same source but
different targets produce *identical* reports while their matched and
unmatched record sets differ — so the report contains the matched/unmatched
counts, not the record sets keyed by externalId that the claim asserts (and a
fortiori no data of the runs beyond those counts, totals and variance). -/
theorem c3_counterexample :
    (DataReconciliationEngine.reconcileMigratedData reconSrc reconTgtA =
      DataReconciliationEngine.reconcileMigratedData reconSrc reconTgtB)
    ∧ (DataReconciliationEngine.matchedIds reconSrc reconTgtA ≠
        DataReconciliationEngine.matchedIds reconSrc reconTgtB)
    ∧ (DataReconciliationEngine.unmatchedSourceIds reconSrc reconTgtA ≠
        DataReconciliationEngine.unmatchedSourceIds reconSrc reconTgtB) := by
  with_unfolding_all decide

/-- C3 (amended): every reconciliation run produces a report with the source
and target record counts, the matched and unmatched record *counts*, the
financial totals computed independently from source and from target, and the
signed variance (target minus source); the report stores no pass/fail verdict
field and `reconcileMigratedData` takes no tolerance input, but the spec's
tolerance verdict is computable from the stored variance. -/
theorem c3_report_contents (src tgt : List ReconRecord) (tol : ℚ) :
    ((DataReconciliationEngine.reconcileMigratedData src tgt).sourceRecordCount =
        src.length)
    ∧ ((DataReconciliationEngine.reconcileMigratedData src tgt).targetRecordCount =
        tgt.length)
    ∧ ((DataReconciliationEngine.reconcileMigratedData src tgt).matchedRecords =
        (DataReconciliationEngine.matchedIds src tgt).card)
    ∧ ((DataReconciliationEngine.reconcileMigratedData src tgt).unmatchedSource =
        (DataReconciliationEngine.unmatchedSourceIds src tgt).card)
    ∧ ((DataReconciliationEngine.reconcileMigratedData src tgt).unmatchedTarget =
        (DataReconciliationEngine.unmatchedTargetIds src tgt).card)
    ∧ ((DataReconciliationEngine.reconcileMigratedData src tgt).financialTotals.source =
        DataReconciliationEngine.calculateFinancialTotals src)
    ∧ ((DataReconciliationEngine.reconcileMigratedData src tgt).financialTotals.target =
        DataReconciliationEngine.calculateFinancialTotals tgt)
    ∧ ((DataReconciliationEngine.reconcileMigratedData src tgt).financialTotals.variance =
        DataReconciliationEngine.calculateFinancialTotals tgt -
          DataReconciliationEngine.calculateFinancialTotals src)
    ∧ (DataReconciliationEngine.toleranceVerdict
        (DataReconciliationEngine.reconcileMigratedData src tgt).financialTotals.variance
        tol =
      DataReconciliationEngine.toleranceVerdict
        (DataReconciliationEngine.calculateVariance src tgt) tol) :=
  ⟨rfl, rfl, rfl, rfl, rfl, rfl, rfl, rfl, rfl⟩

/-! ## Header mapping confidence (claim C6) -/

/-- Distance to the empty list is the length. -/
theorem lev_nil_right : ∀ xs : List Char, ExcelMigrationEngine.lev xs [] =
    xs.length := by
  intro xs
  induction xs with
  | nil => rfl
  | cons x xs ih =>
    simp [ExcelMigrationEngine.lev, ExcelMigrationEngine.levCons, ih]

/-- The Levenshtein distance is at most the larger length. -/
theorem lev_le_max : ∀ xs ys : List Char,
    ExcelMigrationEngine.lev xs ys ≤ max xs.length ys.length := by
  intro xs
  induction xs with
  | nil => intro ys; simp [ExcelMigrationEngine.lev]
  | cons x xs ih =>
    intro ys
    induction ys with
    | nil => simp [lev_nil_right]
    | cons y ys ih2 =>
      have h1 := ih ys
      have h2 := ih (y :: ys)
      simp only [ExcelMigrationEngine.lev] at ih2 ⊢
      simp only [ExcelMigrationEngine.levCons]
      simp only [List.length_cons] at *
      by_cases hxy : x = y <;> simp only [hxy, if_true, if_false] <;> omega

/-- Distinct lists have positive Levenshtein distance. -/
theorem lev_pos_of_ne : ∀ xs ys : List Char, xs ≠ ys →
    1 ≤ ExcelMigrationEngine.lev xs ys := by
  intro xs
  induction xs with
  | nil =>
    intro ys hne
    cases ys with
    | nil => exact absurd rfl hne
    | cons y ys => simp [ExcelMigrationEngine.lev]
  | cons x xs ih =>
    intro ys hne
    cases ys with
    | nil =>
      rw [lev_nil_right]
      simp
    | cons y ys =>
      simp only [ExcelMigrationEngine.lev, ExcelMigrationEngine.levCons]
      by_cases hxy : x = y
      · have hne2 : xs ≠ ys := by
          intro heq
          exact hne (by rw [hxy, heq])
        have := ih ys hne2
        simp only [hxy, if_true, if_pos rfl]
        omega
      · simp only [hxy, if_false]
        omega

/-- The maximum of a rational list folded from `0` is nonnegative. -/
theorem foldr_max_nonneg : ∀ l : List ℚ, 0 ≤ l.foldr max 0 := by
  intro l
  induction l with
  | nil => simp
  | cons a l ih => exact le_max_of_le_right ih

/-- The maximum of a rational list folded from `0` stays below `1` when every
element does. -/
theorem foldr_max_lt_one : ∀ l : List ℚ, (∀ x ∈ l, x < 1) →
    l.foldr max 0 < 1 := by
  intro l
  induction l with
  | nil => intro _; norm_num
  | cons a l ih =>
    intro h
    exact max_lt (h a (List.mem_cons_self a l))
      (ih fun x hx => h x (List.mem_cons_of_mem a hx))

/-- The similarity score is nonnegative. -/
theorem similarity_nonneg (a b : List Char) :
    0 ≤ ExcelMigrationEngine.similarity a b := by
  unfold ExcelMigrationEngine.similarity
  set m := max a.length b.length with hmdef
  split_ifs with h
  · norm_num
  · have hm : 1 ≤ m := by
      rcases Nat.eq_zero_or_pos m with h0 | h0
      · exfalso
        rw [hmdef] at h0
        exact h ⟨Nat.le_zero.mp (le_trans (Nat.le_max_left _ _) h0.le),
          Nat.le_zero.mp (le_trans (Nat.le_max_right _ _) h0.le)⟩
      · exact h0
    have hd : (ExcelMigrationEngine.lev a b : ℚ) ≤ (m : ℚ) := by
      exact_mod_cast hmdef ▸ lev_le_max a b
    have hmq : (0 : ℚ) < (m : ℚ) := by exact_mod_cast hm
    have hdiv : (ExcelMigrationEngine.lev a b : ℚ) / (m : ℚ) ≤ 1 :=
      (div_le_one hmq).mpr hd
    linarith

/-- The similarity score of distinct lists is below `1`. -/
theorem similarity_lt_one (a b : List Char) (hab : a ≠ b) :
    ExcelMigrationEngine.similarity a b < 1 := by
  unfold ExcelMigrationEngine.similarity
  set m := max a.length b.length with hmdef
  split_ifs with h
  · exact absurd (List.length_eq_zero.mp h.1 ▸ List.length_eq_zero.mp h.2 ▸ rfl) hab
  · have hm : 1 ≤ m := by
      rcases Nat.eq_zero_or_pos m with h0 | h0
      · exfalso
        rw [hmdef] at h0
        exact h ⟨Nat.le_zero.mp (le_trans (Nat.le_max_left _ _) h0.le),
          Nat.le_zero.mp (le_trans (Nat.le_max_right _ _) h0.le)⟩
      · exact h0
    have hd : (1 : ℚ) ≤ (ExcelMigrationEngine.lev a b : ℚ) := by
      exact_mod_cast lev_pos_of_ne a b hab
    have hmq : (0 : ℚ) < (m : ℚ) := by
      exact_mod_cast hm
    have hdiv : 0 < (ExcelMigrationEngine.lev a b : ℚ) / (m : ℚ) :=
      div_pos (lt_of_lt_of_le one_pos hd) hmq
    linarith

/-- Whatever `pickBest` returns is a scored candidate or the accumulator. -/
theorem pickBest_mem : ∀ (l : List (String × ℚ)) (acc : Option (String × ℚ))
    (r : String × ℚ), ExcelMigrationEngine.pickBest l acc = some r →
    r ∈ l ∨ acc = some r := by
  intro l
  induction l with
  | nil =>
    intro acc r h
    exact Or.inr (by simpa [ExcelMigrationEngine.pickBest] using h)
  | cons p ps ih =>
    intro acc r h
    simp only [ExcelMigrationEngine.pickBest] at h
    rcases ih _ r h with hmem | hacc
    · exact Or.inl (List.mem_cons_of_mem p hmem)
    · cases acc with
      | none =>
        simp only at hacc
        obtain rfl : p = r := Option.some.inj hacc
        exact Or.inl (List.mem_cons_self p ps)
      | some q =>
        simp only at hacc
        split_ifs at hacc with hlt
        · obtain rfl : p = r := Option.some.inj hacc
          exact Or.inl (List.mem_cons_self p ps)
        · exact Or.inr hacc

/-- With no exact alias, every alias normalizes away from the header. -/
theorem exactAliasField_none {header : String} {fields : List TemplateField}
    (h : ExcelMigrationEngine.exactAliasField header fields = none) :
    ∀ f ∈ fields, ∀ al ∈ f.aliases,
      ExcelMigrationEngine.normalizeHeader al ≠
        ExcelMigrationEngine.normalizeHeader header := by
  intro f hf al hal
  have hfind := List.find?_eq_none.mp h f hf
  simp only [List.any_eq_true, not_exists, not_and, Bool.not_eq_true] at hfind
  intro heq
  have := hfind
  simp only [beq_eq_false_iff_ne] at this
  exact this al hal heq

/-- C6: header mapping — an exact alias match takes priority and yields
confidence `1`; otherwise the similarity confidence lies in `[0,1)` and a
match is returned only above the minimum confidence; concretely, under the
default threshold `0.6` the raw header `"QTY "` maps to canonical field
`"quantity"` with confidence `1 ≥ 0.6` through the alias `"qty"` of
`boqTemplate`, while the header `"Quality"` is rejected. -/
theorem c6_mapping_confidence :
    (∀ (minC : ℚ) (header : String) (fields : List TemplateField)
        (f : TemplateField),
        ExcelMigrationEngine.exactAliasField header fields = some f →
        ExcelMigrationEngine.findBestMatch minC header fields =
          some (f.name, 1))
    ∧ (∀ (minC : ℚ) (header : String) (fields : List TemplateField)
        (n : String) (c : ℚ),
        ExcelMigrationEngine.exactAliasField header fields = none →
        ExcelMigrationEngine.findBestMatch minC header fields = some (n, c) →
        0 ≤ c ∧ c < 1 ∧ minC < c)
    ∧ (ExcelMigrationEngine.findBestMatch
        ExcelMigrationEngine.defaultMinConfidence "QTY " boqTemplate.fields =
          some ("quantity", 1))
    ∧ (ExcelMigrationEngine.defaultMinConfidence ≤ 1)
    ∧ (ExcelMigrationEngine.findBestMatch
        ExcelMigrationEngine.defaultMinConfidence "Quality" boqTemplate.fields =
          none) := by
  refine ⟨?_, ?_, by with_unfolding_all decide,
    by with_unfolding_all decide, by with_unfolding_all decide⟩
  · intro minC header fields f h
    unfold ExcelMigrationEngine.findBestMatch
    rw [h]
  · intro minC header fields n c hnone hsome
    unfold ExcelMigrationEngine.findBestMatch at hsome
    rw [hnone] at hsome
    simp only at hsome
    rcases hpick : ExcelMigrationEngine.pickBest
        (fields.map (fun f =>
          (f.name, ExcelMigrationEngine.aliasSimilarity
            (ExcelMigrationEngine.normalizeHeader header) f))) none with _ | nc
    · rw [hpick] at hsome
      simp at hsome
    · rw [hpick] at hsome
      rcases nc with ⟨n0, c0⟩
      simp only at hsome
      split_ifs at hsome with hcmp
      · have hinj := Option.some_injective _ hsome
        have hn : n0 = n := congrArg Prod.fst hinj
        have hc : c0 = c := congrArg Prod.snd hinj
        subst hc
        rcases pickBest_mem _ _ _ hpick with hmem | habs
        · obtain ⟨f, hf, heq⟩ := List.mem_map.mp hmem
          have hcval : ExcelMigrationEngine.aliasSimilarity
              (ExcelMigrationEngine.normalizeHeader header) f = c0 :=
            congrArg Prod.snd heq
          have hne := exactAliasField_none hnone f hf
          have hlow : 0 ≤ ExcelMigrationEngine.aliasSimilarity
              (ExcelMigrationEngine.normalizeHeader header) f :=
            foldr_max_nonneg _
          have hhigh : ExcelMigrationEngine.aliasSimilarity
              (ExcelMigrationEngine.normalizeHeader header) f < 1 := by
            apply foldr_max_lt_one
            intro x hx
            obtain ⟨al, hal, rfl⟩ := List.mem_map.mp hx
            exact similarity_lt_one _ _ (fun heq => hne al hal heq.symm)
          exact ⟨hcval ▸ hlow, hcval ▸ hhigh, hcmp⟩
        · exact absurd habs (by simp)

/-- Witness for C6: a concrete exact alias — the raw header `"uom"` maps to
the canonical field `"unit"` with confidence `1`. -/
theorem c6_mapping_confidence_witness :
    ExcelMigrationEngine.findBestMatch
        ExcelMigrationEngine.defaultMinConfidence "uom" boqTemplate.fields =
      some ("unit", 1) :=
  c6_mapping_confidence.1 ExcelMigrationEngine.defaultMinConfidence "uom"
    boqTemplate.fields
    { name := "unit", aliases := ["uom", "unit of measure"]
    , required := true, dataType := none }
    (by with_unfolding_all decide)

/-! ## Positive-quantity schema rule (claim C7) -/

/-- C7: a quantity that is not strictly positive is always rejected — by the
shared zod cost-item schema (message "Quantity must be positive") and by the
migration schema layer (blocking error code `quantity_must_be_positive`); in
the three-record scenario with one negative quantity the pipeline reports
discovered 3, imported 2, failed 1, and the bad record carries exactly the
`quantity_must_be_positive` error. -/
theorem c7_quantity_positive :
    (∀ x : CostItemInput, x.quantity ≤ 0 →
        "Quantity must be positive" ∈ createCostItemSchemaCheck x)
    ∧ (∀ r : BoqRecord, r.quantity ≤ 0 →
        ({ severity := "error", field := "quantity"
         , message := "Quantity must be positive"
         , code := "quantity_must_be_positive" } : Issue) ∈ schemaIssues r)
    ∧ (importPipeline scenarioRecords =
        { discovered := 3, imported := 2, failed := 1 })
    ∧ (schemaIssues scenarioBadRecord =
        [ { severity := "error", field := "quantity"
          , message := "Quantity must be positive"
          , code := "quantity_must_be_positive" } ]) := by
  refine ⟨?_, ?_, by with_unfolding_all decide, by with_unfolding_all decide⟩
  · intro x hx
    unfold createCostItemSchemaCheck
    have hq : ¬ (0 < x.quantity) := not_lt.mpr hx
    simp [hq]
  · intro r hr
    unfold schemaIssues
    have hq : ¬ (0 < r.quantity) := not_lt.mpr hr
    simp [hq]

/-- Witness for C7: a concrete cost item with quantity `0` (not strictly
positive) is rejected by the shared schema. -/
theorem c7_quantity_positive_witness :
    "Quantity must be positive" ∈ createCostItemSchemaCheck
      { name := "Concrete", description := none, code := none
      , type := "MATERIAL", quantity := 0, unit := "m"
      , unitCost := 5, categoryId := "cfixturecat01", phaseId := none
      , notes := none } :=
  c7_quantity_positive.1
    { name := "Concrete", description := none, code := none
    , type := "MATERIAL", quantity := 0, unit := "m"
    , unitCost := 5, categoryId := "cfixturecat01", phaseId := none
    , notes := none } (by with_unfolding_all decide)

end MVLBIM
